import Mathlib

/-
Shallow embedding of src/labthings_sangaboard/__init__.py (class SangaboardThing).

The Python class wraps a serial motor-controller driver.  We model:
  * the cached `position` property (a dict built with zip) as an ordered
    association list `Pos`;
  * the `moving` boolean property;
  * the external driver (`sangaboard.Sangaboard`) as a `Driver` record that
    supplies successive hardware position readings (indexed by a read
    counter), a flag saying whether `move_rel` raises, and the serial
    termination character;
  * every hardware interaction and lock interaction as an explicit `Event`
    appended to a trace, so that claims about counts of reads/writes and
    about lock acquisition can be stated;
  * Python exceptions as the `PyError` enumeration.  The constructor
    `notReadyError` represents the NotReadyError of the specification's
    error taxonomy; it is included only so that claims mentioning it can be
    stated, and the code never produces it.
-/

namespace Sangaboard

/-- The `_axis_names` class attribute: `("x", "y", "z")`. -/
def axis_names : List String := [ "x", "y", "z" ]

/-- A position mapping, ordered as Python dicts are (insertion order). -/
abbrev Pos := List (String × Int)

/-- The exceptions the modelled code can raise, plus the specification's
`NotReadyError` (never produced by the code). -/
inductive PyError where
  | attributeError : PyError
  | httpException : Nat → String → PyError
  | valueError : PyError
  | typeError : PyError
  | keyError : PyError
  | motionError : PyError
  | notReadyError : PyError
deriving DecidableEq

/-- Observable interactions with the lock and the hardware. -/
inductive Event where
  | lockAcquire : Event
  | lockRelease : Event
  | posRead : Event
  | moveRel : List Int → Event
  | rawWrite : String → Event
deriving DecidableEq

/-- True exactly on `moveRel` events. -/
def Event.isMoveRel : Event → Bool
  | Event.moveRel _ => true
  | _ => false

/-- True exactly on `posRead` events. -/
def Event.isPosRead : Event → Bool
  | Event.posRead => true
  | _ => false

/-- The mutable state of the Thing: the `position` and `moving` properties. -/
structure ThingState where
  position : Pos
  moving : Bool
deriving DecidableEq

/-- The external driver: `readings n` is what `sb.position` returns on the
n-th hardware position read; `moveRelFails` says whether `sb.move_rel`
raises a driver-level error; `tc` is `termination_character`. -/
structure Driver where
  readings : Nat → List Int
  moveRelFails : Bool
  tc : String

/-- Result of running one method: the raised exception (if any), the final
property state, the new read counter, and the event trace. -/
structure Exec where
  error : Option PyError
  state : ThingState
  rc : Nat
  events : List Event
deriving DecidableEq

/-- Property defaults: `position` starts as the empty dict, `moving` as
False (the `PropertyDescriptor` defaults in the class body). -/
def initState : ThingState := { position := [], moving := false }

/-- The raw serial command written by `abort_move`: `("stop" + tc)`. -/
def stopCmd (tc : String) : String := "stop" ++ tc

/-- `update_position`: under the lock, read `sb.position` once and set
`self.position = {k: v for (k, v) in zip(self.axis_names, sb.position)}`.
`List.zip` truncates to the shorter list, exactly as Python `zip` does. -/
def update_position (drv : Driver) (rc : Nat) (st : ThingState) : Exec :=
  { error := none,
    state := { st with position := axis_names.zip (drv.readings rc) },
    rc := rc + 1,
    events := [ Event.lockAcquire, Event.posRead, Event.lockRelease ] }

/-- `move_relative(**kwargs)`: under the lock, set `moving = True`, call
`sb.move_rel([kwargs.get(k, 0) for k in self.axis_names])`, then set
`moving = False` and call `update_position()`.  There is no try/finally:
if `move_rel` raises, the error propagates with `moving` still True (the
`with` statement still releases the lock). -/
def move_relative (drv : Driver) (rc : Nat) (st : ThingState) (kwargs : Pos) : Exec :=
  if drv.moveRelFails then
    { error := some PyError.motionError,
      state := { st with moving := true },
      rc := rc,
      events := [ Event.lockAcquire,
        Event.moveRel (axis_names.map (fun k => (kwargs.lookup k).getD 0)),
        Event.lockRelease ] }
  else
    { error := none,
      state := (update_position drv rc { st with moving := false }).state,
      rc := (update_position drv rc { st with moving := false }).rc,
      events := [ Event.lockAcquire,
        Event.moveRel (axis_names.map (fun k => (kwargs.lookup k).getD 0)) ]
        ++ (update_position drv rc { st with moving := false }).events
        ++ [ Event.lockRelease ] }

/-- The dict comprehension `{k: v - self.position[k] for k, v in kwargs}` in
`move_absolute`.  Iterating a dict yields its keys, so `for k, v in kwargs`
tuple-unpacks each key string: a key whose length is not 2 raises
ValueError; a key of length 2 unpacks into two characters, after which
`self.position[k]` raises KeyError for an unknown single-character key, and
otherwise the subtraction `char - int` raises TypeError.  Only the empty
kwargs dict survives, producing the empty displacement dict. -/
def abs_displacement (position : Pos) (kwargs : Pos) : Except PyError Pos :=
  match kwargs with
  | [] => Except.ok []
  | (s, _) :: _ =>
    match s.toList with
    | [c1, _] =>
      if (position.lookup (String.mk [c1])).isSome then Except.error PyError.typeError
      else Except.error PyError.keyError
    | _ => Except.error PyError.valueError

/-- `move_absolute(**kwargs)`: under the (reentrant) lock, call
`update_position()`, compute the displacement dict (see
`abs_displacement`), and delegate to `move_relative(**displacement)`.  If
the comprehension raises, the error propagates after the lock is
released. -/
def move_absolute (drv : Driver) (rc : Nat) (st : ThingState) (kwargs : Pos) : Exec :=
  match abs_displacement (update_position drv rc st).state.position kwargs with
  | Except.error e =>
    { error := some e,
      state := (update_position drv rc st).state,
      rc := (update_position drv rc st).rc,
      events := [ Event.lockAcquire ] ++ (update_position drv rc st).events
        ++ [ Event.lockRelease ] }
  | Except.ok d =>
    { error :=
        (move_relative drv (update_position drv rc st).rc (update_position drv rc st).state d).error,
      state :=
        (move_relative drv (update_position drv rc st).rc (update_position drv rc st).state d).state,
      rc :=
        (move_relative drv (update_position drv rc st).rc (update_position drv rc st).state d).rc,
      events := [ Event.lockAcquire ] ++ (update_position drv rc st).events
        ++ (move_relative drv (update_position drv rc st).rc (update_position drv rc st).state d).events
        ++ [ Event.lockRelease ] }

/-- `abort_move()`: if `self.moving`, write `("stop" + tc).encode()` straight
to the serial port, deliberately without taking the lock; otherwise raise
`HTTPException(status_code=409, detail="Stage is not moving.")`.  Neither
branch assigns to `position` or `moving`. -/
def abort_move (drv : Driver) (rc : Nat) (st : ThingState) : Exec :=
  if st.moving then
    { error := none, state := st, rc := rc,
      events := [ Event.rawWrite (stopCmd drv.tc) ] }
  else
    { error := some (PyError.httpException 409 "Stage is not moving."),
      state := st, rc := rc, events := [] }

/-- The operations a caller can invoke on the Thing. -/
inductive Op where
  | moveRelative : Pos → Op
  | moveAbsolute : Pos → Op
  | updatePosition : Op
  | abortMove : Op
  | axisNames : Op
deriving DecidableEq

/-- Behaviour before `__enter__` has run: `_sangaboard` and
`_sangaboard_lock` do not exist yet, so every method that enters the
`sangaboard()` context manager raises AttributeError before touching
hardware; `abort_move` reads `self.moving`, whose `PropertyDescriptor`
default is False, so it raises the 409 HTTPException; `axis_names` just
returns the class attribute.  The property state is still the defaults. -/
def run_before_start (op : Op) : Exec :=
  match op with
  | Op.moveRelative _ =>
    { error := some PyError.attributeError, state := initState, rc := 0, events := [] }
  | Op.moveAbsolute _ =>
    { error := some PyError.attributeError, state := initState, rc := 0, events := [] }
  | Op.updatePosition =>
    { error := some PyError.attributeError, state := initState, rc := 0, events := [] }
  | Op.abortMove =>
    { error := some (PyError.httpException 409 "Stage is not moving."),
      state := initState, rc := 0, events := [] }
  | Op.axisNames =>
    { error := none, state := initState, rc := 0, events := [] }

/-- A driver that reports position (10, 0, 0) and whose moves succeed. -/
def drv10 : Driver := { readings := fun _ => [10, 0, 0], moveRelFails := false, tc := "\r" }

/-- A driver whose `move_rel` raises a driver-level error. -/
def drvFail : Driver := { readings := fun _ => [0, 0, 0], moveRelFails := true, tc := "\r" }

/-- Cached position x=10, y=0, z=0, not moving. -/
def st10 : ThingState :=
  { position := [ ("x", 10), ("y", 0), ("z", 0) ], moving := false }

/-- Cached position all zero, not moving. -/
def stZero : ThingState :=
  { position := [ ("x", 0), ("y", 0), ("z", 0) ], moving := false }

/-- Cached position all zero, with a move in flight. -/
def stMoving : ThingState :=
  { position := [ ("x", 0), ("y", 0), ("z", 0) ], moving := true }

/-- The keys of a position mapping are an in-order prefix of the axis
names (equivalently: a subset of the axis names, enumerated in AxisSet
order, with no extraneous keys). -/
abbrev goodKeys (p : Pos) : Prop :=
  p.map Prod.fst = axis_names.take p.length

/-- Any position produced by zipping the axis names with a reading has
good keys, whatever the reading's length. -/
theorem goodKeys_zip (r : List Int) : goodKeys (axis_names.zip r) := by
  rcases r with _ | ⟨a, _ | ⟨b, _ | ⟨c, rest⟩⟩⟩ <;> rfl

/-- C1: the claim says `move_absolute(x=5)` from position x=10, y=0, z=0
resyncs, computes delta x = -5 and ends at x=5.  In the code the dict
comprehension iterates the kwargs keys and tuple-unpacks each key string
(`.items()` is missing), so the call raises ValueError and no relative
move is ever commanded. -/
theorem move_absolute_x5_raises_valueError :
    (move_absolute drv10 0 st10 [ ("x", 5) ]).error = some PyError.valueError
    ∧ (move_absolute drv10 0 st10 [ ("x", 5) ]).events.filter Event.isMoveRel = []
    ∧ (move_absolute drv10 0 st10 [ ("x", 5) ]).state.position
        = [ ("x", 10), ("y", 0), ("z", 0) ] := by
  exact ⟨rfl, rfl, rfl⟩

/-- C2: the claim says `moving` is reset to False before a driver error
propagates out of a move.  The code has no try/finally: with a driver
whose `move_rel` raises, `move_relative(x=1)` propagates the error while
leaving `moving` stuck at True (the lock is still released by the `with`
statement). -/
theorem move_relative_error_leaves_moving_true :
    (move_relative drvFail 0 stZero [ ("x", 1) ]).error = some PyError.motionError
    ∧ (move_relative drvFail 0 stZero [ ("x", 1) ]).state.moving = true
    ∧ (move_relative drvFail 0 stZero [ ("x", 1) ]).events.getLast? = some Event.lockRelease := by
  exact ⟨rfl, rfl, rfl⟩

/-- C3: on every call (success or driver failure), `move_relative` issues
exactly one relative-move command, whose displacement vector follows the
`axis_names` order, taking the value from `kwargs` for each present axis
and 0 for every omitted axis. -/
theorem move_relative_vector_spec (drv : Driver) (rc : Nat) (st : ThingState) (kwargs : Pos) :
    (move_relative drv rc st kwargs).events.filter Event.isMoveRel
      = [ Event.moveRel (axis_names.map (fun k => (kwargs.lookup k).getD 0)) ] := by
  cases hf : drv.moveRelFails <;>
    simp [move_relative, hf, update_position, Event.isMoveRel]

/-- C9: `abort_move` never modifies the controller's own state: in both
branches the final property state (cached position and `moving` flag)
equals the initial one, so `moving` stays True after a successful abort
until the blocked move call itself returns. -/
theorem abort_move_frame (drv : Driver) (rc : Nat) (st : ThingState) :
    (abort_move drv rc st).state = st := by
  unfold abort_move
  split <;> rfl

/-- C4 counterexample: the claim says any operation invoked before
`start()` fails with NotReadyError.  In the code, `move_relative` before
start raises AttributeError (the connection and lock attributes are
unset), and `abort_move` before start raises the 409 conflict
HTTPException, because `moving` still has its default value False. -/
theorem before_start_raises_attributeError :
    (run_before_start (Op.moveRelative [ ("x", 1) ])).error = some PyError.attributeError
    ∧ (run_before_start (Op.moveRelative [ ("x", 1) ])).error ≠ some PyError.notReadyError
    ∧ (run_before_start Op.abortMove).error
        = some (PyError.httpException 409 "Stage is not moving.") := by
  refine ⟨rfl, ?_, rfl⟩
  simp [run_before_start]

/-- C4 amended: operations invoked before `start()` never fail with
NotReadyError and never touch hardware: `move_relative`, `move_absolute`
and `update_position` raise AttributeError because the connection and
lock attributes do not exist yet; `abort_move` raises the 409 conflict
HTTPException because `moving` defaults to False; reading `axis_names`
succeeds; the property state keeps its defaults. -/
theorem before_start_behavior (op : Op) :
    (run_before_start op).events = []
    ∧ (run_before_start op).error ≠ some PyError.notReadyError
    ∧ (run_before_start op).state = initState
    ∧ (run_before_start op).error =
        (match op with
         | Op.moveRelative _ => some PyError.attributeError
         | Op.moveAbsolute _ => some PyError.attributeError
         | Op.updatePosition => some PyError.attributeError
         | Op.abortMove => some (PyError.httpException 409 "Stage is not moving.")
         | Op.axisNames => none) := by
  cases op <;> simp [run_before_start]

/-- C5: whenever `moving` is False, `abort_move` raises the 409 conflict
HTTPException (distinct from the driver-level error kinds), performs no
hardware write and no other event, and leaves the state unchanged. -/
theorem abort_move_not_moving (drv : Driver) (rc : Nat) (st : ThingState)
    (h : st.moving = false) :
    (abort_move drv rc st).error = some (PyError.httpException 409 "Stage is not moving.")
    ∧ (abort_move drv rc st).events = []
    ∧ (abort_move drv rc st).state = st := by
  simp [abort_move, h]

/-- C5 witness: the idle-stage abort at a concrete state. -/
theorem abort_move_not_moving_witness :
    (abort_move drv10 0 st10).error = some (PyError.httpException 409 "Stage is not moving.")
    ∧ (abort_move drv10 0 st10).events = []
    ∧ (abort_move drv10 0 st10).state = st10 :=
  abort_move_not_moving drv10 0 st10 rfl

/-- C6: whenever `moving` is True, `abort_move` issues exactly one raw
write of the stop command to the transport, acquires the lock at no point,
and raises nothing. -/
theorem abort_move_moving (drv : Driver) (rc : Nat) (st : ThingState)
    (h : st.moving = true) :
    (abort_move drv rc st).events = [ Event.rawWrite (stopCmd drv.tc) ]
    ∧ Event.lockAcquire ∉ (abort_move drv rc st).events
    ∧ (abort_move drv rc st).error = none := by
  simp [abort_move, h]

/-- C6 witness: aborting a concrete in-flight move. -/
theorem abort_move_moving_witness :
    (abort_move drv10 0 stMoving).events = [ Event.rawWrite (stopCmd drv10.tc) ]
    ∧ Event.lockAcquire ∉ (abort_move drv10 0 stMoving).events
    ∧ (abort_move drv10 0 stMoving).error = none :=
  abort_move_moving drv10 0 stMoving rfl

/-- C7: every successful `move_relative` performs exactly one hardware
position read, raises nothing, leaves `moving` False, and leaves the
cached position equal to the zip of the axis names with the
driver-reported coordinates of that read. -/
theorem move_relative_resync (drv : Driver) (rc : Nat) (st : ThingState) (kwargs : Pos)
    (h : drv.moveRelFails = false) :
    (move_relative drv rc st kwargs).error = none
    ∧ ((move_relative drv rc st kwargs).events.filter Event.isPosRead).length = 1
    ∧ (move_relative drv rc st kwargs).state.position = axis_names.zip (drv.readings rc)
    ∧ (move_relative drv rc st kwargs).state.moving = false := by
  simp [move_relative, h, update_position, Event.isPosRead]

/-- C7 witness: the spec scenario, `move_relative(x=10)` from all-zero with
the driver then reporting (10, 0, 0). -/
theorem move_relative_resync_witness :
    (move_relative drv10 0 stZero [ ("x", 10) ]).error = none
    ∧ ((move_relative drv10 0 stZero [ ("x", 10) ]).events.filter Event.isPosRead).length = 1
    ∧ (move_relative drv10 0 stZero [ ("x", 10) ]).state.position
        = axis_names.zip (drv10.readings 0)
    ∧ (move_relative drv10 0 stZero [ ("x", 10) ]).state.moving = false :=
  move_relative_resync drv10 0 stZero [ ("x", 10) ] rfl

/-- C8: the cached position starts as the empty mapping; `update_position`
always succeeds and overwrites it with the zip of the axis names and the
driver reading, which truncates to the shorter of the two (a short reading
silently yields a position missing the trailing axes); and every
operation keeps the position keys an in-order prefix of the axis names. -/
theorem position_keys_invariant :
    initState.position = []
    ∧ (∀ drv rc st, (update_position drv rc st).error = none
        ∧ (update_position drv rc st).state.position = axis_names.zip (drv.readings rc)
        ∧ goodKeys (update_position drv rc st).state.position)
    ∧ (∀ drv rc st kwargs, goodKeys st.position →
        goodKeys (move_relative drv rc st kwargs).state.position)
    ∧ (∀ drv rc st kwargs, goodKeys st.position →
        goodKeys (move_absolute drv rc st kwargs).state.position)
    ∧ (∀ drv rc st, goodKeys st.position →
        goodKeys (abort_move drv rc st).state.position) := by
  refine ⟨rfl, fun drv rc st => ⟨rfl, rfl, goodKeys_zip _⟩, ?_, ?_, ?_⟩
  · intro drv rc st kwargs h
    cases hf : drv.moveRelFails <;> simp [move_relative, hf, update_position]
    · exact goodKeys_zip _
    · exact h
  · intro drv rc st kwargs h
    rcases habs : abs_displacement (update_position drv rc st).state.position kwargs
        with e | d <;> simp only [move_absolute, habs]
    · exact goodKeys_zip _
    · cases hf : drv.moveRelFails <;> simp [move_relative, hf, update_position]
      · exact goodKeys_zip _
      · exact goodKeys_zip _
  · intro drv rc st h
    unfold abort_move
    split <;> exact h

/-- C8 witness: the key invariant applied to a concrete abort call. -/
theorem position_keys_invariant_witness :
    goodKeys (abort_move drv10 0 st10).state.position :=
  position_keys_invariant.2.2.2.2 drv10 0 st10 (by decide)

/-- C10: `move_absolute` with empty targets is not a hardware no-op: it
still issues exactly one relative-move command, with the all-zero
displacement vector, and performs two hardware position reads (one before
computing the deltas and one after the zero move). -/
theorem move_absolute_empty_targets (drv : Driver) (rc : Nat) (st : ThingState)
    (h : drv.moveRelFails = false) :
    (move_absolute drv rc st []).events.filter Event.isMoveRel
        = [ Event.moveRel [ 0, 0, 0 ] ]
    ∧ ((move_absolute drv rc st []).events.filter Event.isPosRead).length = 2
    ∧ (move_absolute drv rc st []).error = none := by
  simp [move_absolute, abs_displacement, move_relative, h, update_position,
    Event.isMoveRel, Event.isPosRead, axis_names, List.lookup]

/-- C10 witness: the empty absolute move against a concrete driver. -/
theorem move_absolute_empty_targets_witness :
    (move_absolute drv10 0 st10 []).events.filter Event.isMoveRel
        = [ Event.moveRel [ 0, 0, 0 ] ]
    ∧ ((move_absolute drv10 0 st10 []).events.filter Event.isPosRead).length = 2
    ∧ (move_absolute drv10 0 st10 []).error = none :=
  move_absolute_empty_targets drv10 0 st10 rfl

end Sangaboard
